import Mathlib

/-!
# Verification of the bt-mqtt bridge core (bt-mqtt-duplex-bridge)

Shallow embedding of the three core modules of the repository:

* `src/bluetooth_handler.py` — `BluetoothHandler` (stream transport endpoint),
* `src/mqtt_handler.py` — `MQTTHandler` (pub/sub messaging endpoint),
* `src/app.py` — `CarDiagApp` (bridge orchestrator).

Bytes are modelled as `Nat` (with `< 256` bounds where relevant), byte
strings as `List Nat`.  External I/O outcomes (socket connect success, recv
results, publish success, broker handshake, broker connack code) are passed
in as explicit oracle arguments, so every operation is a pure function of
its endpoint state plus those oracles.  Python exceptions that the code
catches are modelled as error outcomes of the oracles; functions being total
embodies the "never raises past the boundary" propagation policy, where
a claim is about exceptions the result type carries an explicit flag, and
where a call can fail to terminate (the lock re-entry in `write`'s error
path) the result type carries an explicit `stuck` outcome.
-/

/-! ## Base64 (standard alphabet, as used by `base64.b64encode`/`b64decode`)

`MQTTHandler.publish` runs `base64.b64encode(data).decode('utf-8')`
(mqtt_handler.py line 135) and `MQTTHandler._on_message` runs
`base64.b64decode(msg.payload.decode('utf-8'))` (line 65).  The base64 text
is pure ASCII, on which the utf-8 encode/decode steps are the identity, so
both paths are modelled directly on ASCII codes (`List Nat`).  Invalid
characters or padding make the modelled decoder return `none`, standing for
the `binascii.Error`/`UnicodeDecodeError` that the Python decode path raises
(and `_on_message` catches); the Python decoder additionally discards some
non-alphabet garbage before decoding, which no claim below exercises. -/

/-- ASCII code of the standard base64 alphabet character for index `i < 64`:
`A`–`Z`, `a`–`z`, `0`–`9`, `+`, `/`. -/
def b64chr (i : Nat) : Nat :=
  if i < 26 then 65 + i
  else if i < 52 then 97 + (i - 26)
  else if i < 62 then 48 + (i - 52)
  else if i = 62 then 43
  else 47

/-- Index of an ASCII code in the standard base64 alphabet, `none` if it is
not an alphabet character. -/
def b64idx (c : Nat) : Option Nat :=
  if 65 ≤ c ∧ c ≤ 90 then some (c - 65)
  else if 97 ≤ c ∧ c ≤ 122 then some (26 + (c - 97))
  else if 48 ≤ c ∧ c ≤ 57 then some (52 + (c - 48))
  else if c = 43 then some 62
  else if c = 47 then some 63
  else none

/-- `base64.b64encode`: bytes to ASCII codes, three input bytes per four
output characters, `=` (61) padding on a trailing group of one or two. -/
def b64encode : List Nat → List Nat
  | [] => []
  | [a] => [b64chr (a / 4), b64chr (a % 4 * 16), 61, 61]
  | [a, b] => [b64chr (a / 4), b64chr (a % 4 * 16 + b / 16), b64chr (b % 16 * 4), 61]
  | a :: b :: c :: rest =>
      b64chr (a / 4) :: b64chr (a % 4 * 16 + b / 16) ::
      b64chr (b % 16 * 4 + c / 64) :: b64chr (c % 64) :: b64encode rest

/-- `base64.b64decode` on ASCII codes: four characters per group, the last
group may end in `=` or `==`; anything else (wrong length, bad character,
padding not at the end) is an error, modelled as `none`. -/
def b64decode : List Nat → Option (List Nat)
  | [] => some []
  | c1 :: c2 :: c3 :: c4 :: rest =>
      match b64idx c1, b64idx c2 with
      | some i1, some i2 =>
          if c3 = 61 then
            if c4 = 61 ∧ rest = [] then some [i1 * 4 + i2 / 16] else none
          else
            match b64idx c3 with
            | some i3 =>
                if c4 = 61 then
                  if rest = [] then
                    some [i1 * 4 + i2 / 16, i2 % 16 * 16 + i3 / 4]
                  else none
                else
                  match b64idx c4 with
                  | some i4 =>
                      (b64decode rest).map fun ds =>
                        (i1 * 4 + i2 / 16) :: (i2 % 16 * 16 + i3 / 4) ::
                        (i3 % 4 * 64 + i4) :: ds
                  | none => none
            | none => none
      | _, _ => none
  | _ => none

theorem b64idx_b64chr : ∀ i, i < 64 → b64idx (b64chr i) = some i := by decide

theorem b64chr_ne_pad : ∀ i, i < 64 → b64chr i ≠ 61 := by decide

/-- Decoding inverts encoding on any list of genuine bytes. -/
theorem b64decode_b64encode (xs : List Nat) (h : ∀ x ∈ xs, x < 256) :
    b64decode (b64encode xs) = some xs := by
  induction xs using b64encode.induct with
  | case1 => rfl
  | case2 a =>
      have ha : a < 256 := h a (by simp)
      have h1 : a / 4 < 64 := by omega
      have h2 : a % 4 * 16 < 64 := by omega
      simp only [b64encode, b64decode, b64idx_b64chr _ h1, b64idx_b64chr _ h2]
      simp
      omega
  | case3 a b =>
      have ha : a < 256 := h a (by simp)
      have hb : b < 256 := h b (by simp)
      have h1 : a / 4 < 64 := by omega
      have h2 : a % 4 * 16 + b / 16 < 64 := by omega
      have h3 : b % 16 * 4 < 64 := by omega
      have hne : b64chr (b % 16 * 4) ≠ 61 := b64chr_ne_pad _ h3
      simp only [b64encode, b64decode, b64idx_b64chr _ h1, b64idx_b64chr _ h2,
        b64idx_b64chr _ h3]
      simp [hne]
      omega
  | case4 a b c rest ih =>
      have ha : a < 256 := h a (by simp)
      have hb : b < 256 := h b (by simp)
      have hc : c < 256 := h c (by simp)
      have hrest : ∀ x ∈ rest, x < 256 := fun x hx => h x (by simp [hx])
      have h1 : a / 4 < 64 := by omega
      have h2 : a % 4 * 16 + b / 16 < 64 := by omega
      have h3 : b % 16 * 4 + c / 64 < 64 := by omega
      have h4 : c % 64 < 64 := by omega
      have hne3 : b64chr (b % 16 * 4 + c / 64) ≠ 61 := b64chr_ne_pad _ h3
      have hne4 : b64chr (c % 64) ≠ 61 := b64chr_ne_pad _ h4
      simp only [b64encode, b64decode, b64idx_b64chr _ h1, b64idx_b64chr _ h2,
        b64idx_b64chr _ h3, b64idx_b64chr _ h4]
      simp [hne3, hne4, ih hrest]
      omega

/-! ## Transport Endpoint — `BluetoothHandler` (src/bluetooth_handler.py)

State is the connection handle: `sock = true` models `self.sock` holding a
live `BluetoothSocket`, `sock = false` models `self.sock is None`.  The
outcome of each external socket call is an oracle argument: `ok : Bool` for
whether `sock.connect` succeeds (a raised `BluetoothError` is the `false`
case, caught by the handler), `sendOk` likewise for `sock.send`, and a
`RecvResult` list for the successive results of `sock.recv` inside `read`
(a finite observed prefix of the blocking receive stream). -/

/-- Connection-handle state of a `BluetoothHandler`. -/
structure BTState where
  sock : Bool
deriving DecidableEq

/-- One result of a blocking `self.sock.recv(buffer_size)` call: a received
chunk (possibly empty, signalling peer closure) or a raised
`BluetoothError`. -/
inductive RecvResult where
  | chunk (bs : List Nat)
  | err
deriving DecidableEq

namespace BluetoothHandler

/-- `connect` (lines 29–44): creates a fresh socket and connects it; on
success the handle is set, on `BluetoothError` the handle is set to `None`
and `False` is returned. -/
def connect (ok : Bool) : Bool × BTState :=
  if ok then (true, ⟨true⟩) else (false, ⟨false⟩)

/-- `disconnect` (lines 46–52): acquires the endpoint's `asyncio.Lock`,
then closes and clears the handle if present, no-op otherwise.  This
models the call from a context not holding the lock (as in `read` and the
orchestrator); the call from `write`'s except branch, made with the lock
already held, deadlocks instead — see `sendLocked`. -/
def disconnect (s : BTState) : BTState :=
  if s.sock then ⟨false⟩ else s

/-- Outcome of one `write` call: either the call returns a boolean result
with the handle state afterwards, or it never returns — `stuck` models the
task blocking forever, with the handle state frozen at the point of the
hang. -/
inductive WriteResult where
  | returns (ok : Bool) (s : BTState)
  | stuck (s : BTState)
deriving DecidableEq

/-- The `async with self._lock:` send block of `write` (lines 93–101): on
send success the block returns `True`.  On a raised `BluetoothError` the
except branch awaits `disconnect()` (line 100), whose first statement
acquires the same non-reentrant `asyncio.Lock` this block has held since
line 93 — that acquisition can never succeed, so the call never returns,
and the handle is never cleared (`disconnect` blocks before reaching
`self.sock = None`). -/
def sendLocked (s : BTState) (sendOk : Bool) : WriteResult :=
  if sendOk then WriteResult.returns true s else WriteResult.stuck s

/-- `write` (lines 81–101): if the handle is absent, first attempt
`connect`, returning `False` if that fails; otherwise enter the locked
send block. -/
def write (s : BTState) (connectOk sendOk : Bool) : WriteResult :=
  if s.sock then sendLocked s sendOk
  else
    let (succ, s1) := connect connectOk
    if succ then sendLocked s1 sendOk else WriteResult.returns false s1

/-- The `while True` receive loop of `read` (lines 67–79): a non-empty
chunk is yielded and the loop continues; an empty chunk (peer closed) or a
`BluetoothError` disconnects and ends the generator.  Returns the list of
yielded chunks and the final handle state (state also covers the case of
the oracle prefix running out while the generator blocks). -/
def readLoop (s : BTState) : List RecvResult → List (List Nat) × BTState
  | [] => ([], s)
  | RecvResult.chunk bs :: rest =>
      if bs = [] then ([], disconnect s)
      else
        let p := readLoop s rest
        (bs :: p.1, p.2)
  | RecvResult.err :: _ => ([], disconnect s)

/-- `read` (lines 54–79): if the handle is absent at the start, attempt
`connect`; if the handle is still absent the generator ends immediately
with no yields; otherwise run the receive loop. -/
def read (s : BTState) (connectOk : Bool) (recvs : List RecvResult) :
    List (List Nat) × BTState :=
  if s.sock then readLoop s recvs
  else
    let s1 := (connect connectOk).2
    if s1.sock then readLoop s1 recvs else ([], s1)

end BluetoothHandler

/-! ## Messaging Endpoint — `MQTTHandler` (src/mqtt_handler.py)

State is the client handle (`client = true` models `self.client` holding a
`mqtt.Client`) plus the client's connected status as reported by
`client.is_connected()` (true once the broker has acknowledged the session
with result code 0).  Oracles: `handshakeOk` for whether
`client.connect(broker, port, 60)` completes without raising, `rc` for the
broker's connack result code, `sendOk` for whether the
`client.publish` call completes without raising. -/

/-- Configuration fields of `MQTTHandler.__init__` (lines 19–43). -/
structure MQTTConfig where
  broker : String
  port : Nat
  dataTopic : String
  cmdTopic : String
  qos : Nat

/-- The defaults of `MQTTHandler.__init__`. -/
def mqttDefaults : MQTTConfig :=
  { broker := "localhost", port := 1883, dataTopic := "elm327/outgoing/data",
    cmdTopic := "elm327/incoming/command", qos := 1 }

/-- Session state of an `MQTTHandler`. -/
structure MQTTState where
  client : Bool
  connected : Bool
deriving DecidableEq

namespace MQTTHandler

/-- `connect` (lines 76–100): sets `self.client` to a fresh client,
registers the callbacks, then runs the network handshake in an executor;
if the handshake raises, the handle is cleared and `False` returned,
otherwise the background loop task is started and `True` returned.  The
result code `rc` of the broker's connack determines the later
`is_connected()` status but is never consulted by `connect` itself. -/
def connect (handshakeOk : Bool) (rc : Nat) : Bool × MQTTState :=
  if handshakeOk then (true, ⟨true, rc == 0⟩) else (false, ⟨false, false⟩)

/-- `_on_connect` (lines 53–59): on result code 0 issues a subscribe to the
command topic at the configured QoS; on any other code only logs.  Returns
the (unchanged) state and the subscribe request, if any. -/
def on_connect (cfg : MQTTConfig) (s : MQTTState) (rc : Nat) :
    MQTTState × Option (String × Nat) :=
  if rc = 0 then (s, some (cfg.cmdTopic, cfg.qos)) else (s, none)

/-- `disconnect` (lines 108–120): if a client is present, stop the loop,
disconnect the session, cancel and await the loop task, clear the handle;
no-op otherwise. -/
def disconnect (s : MQTTState) : MQTTState :=
  if s.client then ⟨false, false⟩ else s

/-- The payload text handed to `client.publish` by `publish` (line 135):
`base64.b64encode(data).decode('utf-8')`, as ASCII codes. -/
def publish_encode (data : List Nat) : List Nat :=
  b64encode data

/-- The inbound decode path of `_on_message` (line 65):
`base64.b64decode(msg.payload.decode('utf-8'))`; `none` stands for a raised
decode error. -/
def inbound_decode (payload : List Nat) : Option (List Nat) :=
  b64decode payload

/-- Outcome of one `publish` call: the boolean result, the session state
afterwards, and the encoded text handed to `client.publish` (`none` when
the send was never reached). -/
structure PublishResult where
  ok : Bool
  state : MQTTState
  handed : Option (List Nat)
deriving DecidableEq

/-- `publish` (lines 122–141): if the handle is absent or the client is not
connected, first attempt `connect`, returning `False` if that fails; then
encode the payload and hand it to `client.publish`; a raised encode/send
error is caught and returns `False`, with no change to the session
state. -/
def publish (s : MQTTState) (data : List Nat)
    (handshakeOk : Bool) (rc : Nat) (sendOk : Bool) : PublishResult :=
  if s.client && s.connected then
    { ok := sendOk, state := s, handed := some (publish_encode data) }
  else
    let (succ, s1) := connect handshakeOk rc
    if succ then { ok := sendOk, state := s1, handed := some (publish_encode data) }
    else { ok := false, state := s1, handed := none }

/-- Outcome of one `_on_message` invocation: the decoded payload the
registered callback was invoked with (if any), whether an exception
escaped the handler (never: the `try/except Exception` catches all), and
whether the `except` branch logged an error. -/
structure OnMsgResult where
  dispatched : Option (List Nat)
  raised : Bool
  errorLogged : Bool
deriving DecidableEq

/-- `_on_message` (lines 61–69): only a message whose topic equals the
configured command topic, with a callback registered, is processed; its
payload is base64-decoded and the callback invoked with the result; a
decode error, or an error raised by the callback itself (`handlerRaises`),
is caught and logged. -/
def on_message (cfg : MQTTConfig) (cbRegistered : Bool) (topic : String)
    (payload : List Nat) (handlerRaises : Bool) : OnMsgResult :=
  if topic = cfg.cmdTopic ∧ cbRegistered = true then
    match inbound_decode payload with
    | some d =>
        { dispatched := some d, raised := false, errorLogged := handlerRaises }
    | none => { dispatched := none, raised := false, errorLogged := true }
  else { dispatched := none, raised := false, errorLogged := false }

end MQTTHandler

/-! ## Bridge Orchestrator — `CarDiagApp` (src/app.py)

The orchestrator owns one `BTState`, one `MQTTState`, the `_running` flag
and the callback-wired flag (whether `set_on_message_callback` has been
called).  Oracles are passed through to the endpoint operations.  On top of
the state-transformer model, the call order of `reconnect` / `disconnect` /
`connect` is captured as an explicit event trace at endpoint-call
granularity, straight from the statement order of the source. -/

/-- Orchestrator state. -/
structure AppState where
  bt : BTState
  mqtt : MQTTState
  running : Bool
  cbWired : Bool
deriving DecidableEq

namespace CarDiagApp

/-- `__init__` (lines 19–47): both handles absent, `_running = False`, no
callback wired. -/
def init : AppState :=
  { bt := ⟨false⟩, mqtt := ⟨false, false⟩, running := false, cbWired := false }

/-- `connect` (lines 65–86): connect Bluetooth; on failure return `False`.
Then connect MQTT; on failure disconnect Bluetooth (rollback) and return
`False`.  On success wire the inbound callback and return `True`. -/
def connect (s : AppState) (btOk mqttOk : Bool) (rc : Nat) : Bool × AppState :=
  let (btSucc, bt1) := BluetoothHandler.connect btOk
  if btSucc then
    let (mqttSucc, m1) := MQTTHandler.connect mqttOk rc
    if mqttSucc then
      (true, { s with bt := bt1, mqtt := m1, cbWired := true })
    else
      (false, { s with bt := BluetoothHandler.disconnect bt1, mqtt := m1 })
  else (false, { s with bt := bt1 })

/-- `disconnect` (lines 127–130): disconnect both endpoints, Bluetooth
first. -/
def disconnect (s : AppState) : AppState :=
  { s with bt := BluetoothHandler.disconnect s.bt,
           mqtt := MQTTHandler.disconnect s.mqtt }

/-- The start of `run` (lines 88–96): set `_running = True`, call
`connect`; on failure return at line 93 — the `while self._running`
supervisory loop is never reached and the state is left as `connect` left
it.  On success the read task is spawned and, `_running` being `True`, the
supervisory loop is entered, so `enteredLoop` is exactly the `connect`
result. -/
structure RunStart where
  enteredLoop : Bool
  state : AppState
deriving DecidableEq

/-- See `RunStart`. -/
def run_begin (s : AppState) (btOk mqttOk : Bool) (rc : Nat) : RunStart :=
  let s1 := { s with running := true }
  let (succ, s2) := connect s1 btOk mqttOk rc
  { enteredLoop := succ, state := s2 }

/-- One endpoint-level call made by the orchestrator, for order-of-calls
properties. -/
inductive Ev where
  | btConnectCall
  | btDisconnectCall
  | mqttConnectCall
  | mqttDisconnectCall
  | wireCallback
  | sleep (secs : Nat)
deriving DecidableEq

/-- Endpoint calls made by `connect` (lines 65–86), in statement order:
always `bt_handler.connect()`; if it succeeds, `mqtt_handler.connect()`;
if that fails, the rollback `bt_handler.disconnect()`; on full success the
callback wiring. -/
def connect_trace (btOk mqttOk : Bool) : List Ev :=
  if btOk then
    if mqttOk then [Ev.btConnectCall, Ev.mqttConnectCall, Ev.wireCallback]
    else [Ev.btConnectCall, Ev.mqttConnectCall, Ev.btDisconnectCall]
  else [Ev.btConnectCall]

/-- Endpoint calls made by `disconnect` (lines 127–130), in statement
order. -/
def disconnect_trace : List Ev :=
  [Ev.btDisconnectCall, Ev.mqttDisconnectCall]

/-- Endpoint calls made by `reconnect` (lines 132–137), in statement order:
`await asyncio.sleep(self.reconnect_interval)` first (line 135), then
`await self.disconnect()` (line 136), then `await self.connect()`
(line 137). -/
def reconnect_trace (interval : Nat) (btOk mqttOk : Bool) : List Ev :=
  Ev.sleep interval :: (disconnect_trace ++ connect_trace btOk mqttOk)

end CarDiagApp

/-! ## Claim theorems -/

/-- Auxiliary for C10: every chunk yielded by the receive loop of
`BluetoothHandler.read` is non-empty. -/
theorem readLoop_mem_ne_nil (s : BTState) :
    ∀ (recvs : List RecvResult) (c : List Nat),
      c ∈ (BluetoothHandler.readLoop s recvs).1 → c ≠ [] := by
  intro recvs
  induction recvs with
  | nil => intro c hc; simp [BluetoothHandler.readLoop] at hc
  | cons r rest ih =>
      intro c hc
      cases r with
      | chunk bs =>
          by_cases hbs : bs = []
          · simp [BluetoothHandler.readLoop, hbs] at hc
          · simp only [BluetoothHandler.readLoop, if_neg hbs, List.mem_cons] at hc
            rcases hc with hc | hc
            · subst hc; exact hbs
            · exact ih c hc
      | err => simp [BluetoothHandler.readLoop] at hc

/-- C1 counterexample: in a concrete reconnect cycle (interval 5, both
endpoint connects succeeding) the pause is the very first step of
`CarDiagApp.reconnect`, so disconnect-both does NOT precede the pause as
the claim states. -/
theorem c1_counterexample :
    ¬ ((CarDiagApp.reconnect_trace 5 true true).indexOf
          CarDiagApp.Ev.btDisconnectCall <
        (CarDiagApp.reconnect_trace 5 true true).indexOf
          (CarDiagApp.Ev.sleep 5)) := by
  decide

/-- C1 (amended): in every invocation of the reconnect cycle the steps
occur in the order pause for the configured reconnect interval, then
disconnect both endpoints, then connect both endpoints. -/
theorem c1_reconnect_order (interval : Nat) (btOk mqttOk : Bool) :
    ((CarDiagApp.reconnect_trace interval btOk mqttOk).indexOf
        (CarDiagApp.Ev.sleep interval) <
      (CarDiagApp.reconnect_trace interval btOk mqttOk).indexOf
        CarDiagApp.Ev.btDisconnectCall) ∧
    ((CarDiagApp.reconnect_trace interval btOk mqttOk).indexOf
        CarDiagApp.Ev.btDisconnectCall <
      (CarDiagApp.reconnect_trace interval btOk mqttOk).indexOf
        CarDiagApp.Ev.mqttDisconnectCall) ∧
    ((CarDiagApp.reconnect_trace interval btOk mqttOk).indexOf
        CarDiagApp.Ev.mqttDisconnectCall <
      (CarDiagApp.reconnect_trace interval btOk mqttOk).indexOf
        CarDiagApp.Ev.btConnectCall) := by
  cases btOk <;> cases mqttOk <;> refine ⟨?_, ?_, ?_⟩ <;>
    simp [CarDiagApp.reconnect_trace, CarDiagApp.disconnect_trace,
      CarDiagApp.connect_trace, List.indexOf_cons_self, List.indexOf_cons_ne]

/-- C2 counterexample: starting `run` from the initial state with the
Bluetooth connect failing, `run` does exit before the supervisory loop,
but the `_running` flag — set to `True` at line 90 — is NOT cleared on this
path, so the system is not left in the stopped state the claim
describes. -/
theorem c2_counterexample :
    (CarDiagApp.run_begin CarDiagApp.init false true 0).enteredLoop = false ∧
    ¬ ((CarDiagApp.run_begin CarDiagApp.init false true 0).state.running
        = false) := by
  decide

/-- C2 (amended): if the initial connect of either endpoint fails, `run`
exits without entering the steady-state supervisory loop, but the running
flag remains set (`True`) — it is not cleared on the fatal-startup
path. -/
theorem c2_startup_fail_no_loop (s : AppState) (btOk mqttOk : Bool) (rc : Nat)
    (h : btOk = false ∨ mqttOk = false) :
    (CarDiagApp.run_begin s btOk mqttOk rc).enteredLoop = false ∧
    (CarDiagApp.run_begin s btOk mqttOk rc).state.running = true := by
  cases btOk <;> cases mqttOk <;>
    simp_all [CarDiagApp.run_begin, CarDiagApp.connect,
      BluetoothHandler.connect, MQTTHandler.connect]

/-- C2 witness: the amended theorem at a concrete input (MQTT handshake
failing). -/
theorem c2_startup_fail_no_loop_witness :
    (CarDiagApp.run_begin CarDiagApp.init true false 3).enteredLoop = false ∧
    (CarDiagApp.run_begin CarDiagApp.init true false 3).state.running = true :=
  c2_startup_fail_no_loop CarDiagApp.init true false 3 (Or.inr rfl)

/-- C3: when the Bluetooth connect succeeds and the MQTT connect then
fails, the orchestrator's `connect` returns failure, the Bluetooth handle
is absent afterwards (rollback executed), and the MQTT handle is absent
too — no endpoint is left connected. -/
theorem c3_connect_rollback (s : AppState) (rc : Nat) :
    (CarDiagApp.connect s true false rc).1 = false ∧
    (CarDiagApp.connect s true false rc).2.bt.sock = false ∧
    (CarDiagApp.connect s true false rc).2.mqtt.client = false := by
  simp [CarDiagApp.connect, BluetoothHandler.connect, MQTTHandler.connect,
    BluetoothHandler.disconnect]

/-- C4 (code bug): the claim — and the repository's own
`test_write_failure` in tests/test_bluetooth.py — expect a failed send to
disconnect and return `False`, but on every path where a send is attempted
and fails, `write` blocks forever: its except branch (line 100) awaits
`disconnect()` while still holding the endpoint's non-reentrant lock
acquired at line 93, so it neither returns failure nor leaves the handle
absent — the handle is still present at the point of the hang. -/
theorem c4_write_send_fail_deadlock (s : BTState) (connectOk : Bool)
    (h : s.sock = true ∨ connectOk = true) :
    BluetoothHandler.write s connectOk false
      = BluetoothHandler.WriteResult.stuck ⟨true⟩ := by
  obtain ⟨sk⟩ := s
  cases sk <;> cases connectOk <;>
    simp_all [BluetoothHandler.write, BluetoothHandler.connect,
      BluetoothHandler.sendLocked]

/-- C4 witness: the deadlocked outcome at a concrete live handle whose
send fails. -/
theorem c4_write_send_fail_deadlock_witness :
    BluetoothHandler.write ⟨true⟩ true false
      = BluetoothHandler.WriteResult.stuck ⟨true⟩ :=
  c4_write_send_fail_deadlock ⟨true⟩ true (Or.inl rfl)

/-- C5: for every byte string, including the empty one, feeding the
publish path's base64 encoding through the inbound message decode path
yields exactly the original bytes. -/
theorem c5_base64_roundtrip (xs : List Nat) (h : ∀ x ∈ xs, x < 256) :
    MQTTHandler.inbound_decode (MQTTHandler.publish_encode xs) = some xs :=
  b64decode_b64encode xs h

/-- C5 witness: the round-trip at the empty byte string and at the bytes
of `"41 00 BE\r>"`. -/
theorem c5_base64_roundtrip_witness :
    MQTTHandler.inbound_decode (MQTTHandler.publish_encode []) = some [] ∧
    MQTTHandler.inbound_decode
        (MQTTHandler.publish_encode [52, 49, 32, 48, 48, 32, 66, 69, 13, 62]) =
      some [52, 49, 32, 48, 48, 32, 66, 69, 13, 62] :=
  ⟨c5_base64_roundtrip [] (by simp),
   c5_base64_roundtrip [52, 49, 32, 48, 48, 32, 66, 69, 13, 62] (by decide)⟩

/-- C6: `_on_message` never lets an exception escape (`raised` is always
`false`, decode and handler errors being caught), and the registered
handler is invoked with a decoded payload exactly when the message topic
equals the configured command topic, a handler is registered, and the
base64 decode of the payload succeeds — otherwise the message is silently
dropped. -/
theorem c6_on_message_dispatch (cfg : MQTTConfig) (cb : Bool) (topic : String)
    (payload : List Nat) (handlerRaises : Bool) (d : List Nat) :
    (MQTTHandler.on_message cfg cb topic payload handlerRaises).raised
      = false ∧
    ((MQTTHandler.on_message cfg cb topic payload handlerRaises).dispatched
        = some d ↔
      topic = cfg.cmdTopic ∧ cb = true ∧
        MQTTHandler.inbound_decode payload = some d) := by
  by_cases ht : topic = cfg.cmdTopic
  · by_cases hcb : cb = true
    · cases hdec : MQTTHandler.inbound_decode payload <;>
        simp [MQTTHandler.on_message, ht, hcb, hdec]
    · simp [MQTTHandler.on_message, ht, hcb]
  · simp [MQTTHandler.on_message, ht]

/-- C7: a `publish` that reaches the send on a live, connected session and
fails there returns failure while leaving the session state exactly
unchanged — the handle is not cleared and no disconnect happens. -/
theorem c7_publish_failure_frame (s : MQTTState) (data : List Nat)
    (handshakeOk : Bool) (rc : Nat)
    (hcl : s.client = true) (hco : s.connected = true) :
    MQTTHandler.publish s data handshakeOk rc false =
      { ok := false, state := s,
        handed := some (MQTTHandler.publish_encode data) } := by
  simp [MQTTHandler.publish, hcl, hco]

/-- C7 witness: the frame property at a concrete connected session and
payload. -/
theorem c7_publish_failure_frame_witness :
    MQTTHandler.publish ⟨true, true⟩ [1, 2, 3] true 0 false =
      { ok := false, state := ⟨true, true⟩,
        handed := some (MQTTHandler.publish_encode [1, 2, 3]) } :=
  c7_publish_failure_frame ⟨true, true⟩ [1, 2, 3] true 0 rfl rfl

/-- C8: starting `read` with the handle absent while the implicit connect
attempt fails produces an immediately-empty sequence — no payloads are
yielded, whatever the receive oracle would have produced, and the
(total) generator ends without raising. -/
theorem c8_read_connect_fail_empty (s : BTState) (recvs : List RecvResult)
    (h : s.sock = false) :
    BluetoothHandler.read s false recvs = ([], ⟨false⟩) := by
  simp [BluetoothHandler.read, BluetoothHandler.connect, h]

/-- C8 witness: the empty-sequence property at a concrete receive
oracle. -/
theorem c8_read_connect_fail_empty_witness :
    BluetoothHandler.read ⟨false⟩ false [RecvResult.chunk [65]]
      = ([], ⟨false⟩) :=
  c8_read_connect_fail_empty ⟨false⟩ [RecvResult.chunk [65]] rfl

/-- C9: `MQTTHandler.connect` reports success exactly when the handshake
call does not raise — for every broker result code, including a
broker-level refusal — and leaves the handle present; a nonzero result
code makes `_on_connect` issue no subscribe and leave the state
untouched (it only logs). -/
theorem c9_connect_ignores_rc (cfg : MQTTConfig) (s : MQTTState) (rc : Nat) :
    (MQTTHandler.connect true rc).1 = true ∧
    (MQTTHandler.connect true rc).2.client = true ∧
    (rc ≠ 0 → MQTTHandler.on_connect cfg s rc = (s, none)) :=
  ⟨by simp [MQTTHandler.connect], by simp [MQTTHandler.connect],
   fun h => by simp [MQTTHandler.on_connect, h]⟩

/-- C9 witness: connect success and the silent `_on_connect` at the
concrete refused result code 5. -/
theorem c9_connect_ignores_rc_witness :
    (MQTTHandler.connect true 5).1 = true ∧
    (MQTTHandler.connect true 5).2.client = true ∧
    MQTTHandler.on_connect mqttDefaults ⟨true, false⟩ 5
      = (⟨true, false⟩, none) :=
  ⟨(c9_connect_ignores_rc mqttDefaults ⟨true, false⟩ 5).1,
   (c9_connect_ignores_rc mqttDefaults ⟨true, false⟩ 5).2.1,
   (c9_connect_ignores_rc mqttDefaults ⟨true, false⟩ 5).2.2 (by decide)⟩

/-- C10: every payload yielded by `BluetoothHandler.read` is non-empty — a
zero-length receive is never yielded to the consumer. -/
theorem c10_read_yields_nonempty (s : BTState) (connectOk : Bool)
    (recvs : List RecvResult) (c : List Nat)
    (h : c ∈ (BluetoothHandler.read s connectOk recvs).1) : c ≠ [] := by
  unfold BluetoothHandler.read at h
  by_cases hs : s.sock
  · rw [if_pos hs] at h
    exact readLoop_mem_ne_nil s recvs c h
  · rw [if_neg hs] at h
    cases connectOk with
    | false => simp [BluetoothHandler.connect] at h
    | true =>
        simp only [BluetoothHandler.connect, if_true] at h
        exact readLoop_mem_ne_nil ⟨true⟩ recvs c h

/-- C10 witness: the non-emptiness property applied to a concrete yielded
chunk. -/
theorem c10_read_yields_nonempty_witness : ([65, 66] : List Nat) ≠ [] :=
  c10_read_yields_nonempty ⟨true⟩ true [RecvResult.chunk [65, 66]] [65, 66]
    (by decide)
